import Mathlib

/-!
Shallow embedding of the SonarQube aggregation client (`src/app.py`).

The upstream HTTP service is modelled as an `Oracle`: a function from the
request the client sends (endpoint, query parameters, headers) to either a
transport failure or an HTTP response (status code and decoded JSON body).
Python exceptions become an explicit error type `Err`:
  - `Err.config`    — the `ValueError` raised by `__init__` for a missing token;
  - `Err.transport` — an `httpx` transport exception (request never completed);
  - `Err.upstream`  — the `HTTPStatusError` from `response.raise_for_status()`
                      on a non-2xx status, carrying status and body;
  - `Err.schema`    — the `KeyError` from a subscript `d["k"]` on a decoded
                      JSON object that lacks key `k`;
  - `Err.typeErr`   — a `TypeError`/`AttributeError` from subscripting or
                      iterating a decoded JSON value of the wrong shape.
Each public operation returns the (unchanged) handler, the list of HTTP
requests it issued, and either a structured report or an error.
-/

namespace Sonar

/-- Decoded JSON values, as Python's `json` module produces them
(objects are dicts, so the field list of `obj` has distinct keys). -/
inductive Json where
  | null
  | bool (b : Bool)
  | num (n : Int)
  | str (s : String)
  | arr (items : List Json)
  | obj (fields : List (String × Json))

/-- The errors the client can raise (see the header comment). -/
inductive Err where
  | config (msg : String)
  | transport
  | upstream (status : Nat) (body : Json)
  | schema (field : String)
  | typeErr (msg : String)

/-- A query-parameter value: `params={"ps": 100}` passes an int, the rest
are strings. -/
inductive PVal where
  | s (v : String)
  | n (v : Nat)

/-- One HTTP GET as the client issues it. -/
structure Request where
  endpoint : String
  params : List (String × PVal)
  headers : List (String × String)

/-- What the network does with a request: transport failure, or a response
with a status code and a decoded JSON body. -/
inductive HttpResp where
  | fail
  | resp (status : Nat) (body : Json)

/-- The upstream service plus network, as a pure function. -/
def Oracle : Type := Request → HttpResp

/-- Python `d[k]` on a decoded JSON value: a `KeyError` (`Err.schema`)
when the object lacks the key, a `TypeError` on a non-object. -/
def Json.getItem (j : Json) (k : String) : Except Err Json :=
  match j with
  | .obj fields =>
    match fields.lookup k with
    | some v => .ok v
    | none => .error (.schema k)
  | _ => .error (.typeErr "value is not subscriptable by a string key")

/-- Python `d.get(k)` on a decoded JSON value: `None` when the key is
absent, an `AttributeError` on a non-object. -/
def Json.getOpt (j : Json) (k : String) : Except Err (Option Json) :=
  match j with
  | .obj fields => .ok (fields.lookup k)
  | _ => .error (.typeErr "value has no attribute get")

/-- Python `d.get(k, [])` followed by iteration: the empty list when the
key is absent, the elements when it holds a JSON array, an error otherwise
(a decoded non-list value is not iterated as the loop expects). -/
def Json.getList (j : Json) (k : String) : Except Err (List Json) :=
  match j with
  | .obj fields =>
    match fields.lookup k with
    | none => .ok []
    | some (.arr xs) => .ok xs
    | some _ => .error (.typeErr "value under the key is not a list")
  | _ => .error (.typeErr "value has no attribute get")

/-- The environment the constructor reads: `SONAR_HOST_URL` and
`SONAR_TOKEN`, each either unset (`none`) or set to a string. -/
structure Env where
  host : Option String
  token : Option String

/-- The client's state after construction: host and the precomputed
headers dict. -/
structure Handler where
  sonar_host : String
  headers : List (String × String)

/-- UTF-8 encoding of one character (`str.encode("utf-8")`, per char). -/
def utf8Char (c : Char) : List Nat :=
  let n := c.toNat
  if n < 128 then [n]
  else if n < 2048 then [192 + n / 64, 128 + n % 64]
  else if n < 65536 then [224 + n / 4096, 128 + (n / 64) % 64, 128 + n % 64]
  else [240 + n / 262144, 128 + (n / 4096) % 64, 128 + (n / 64) % 64, 128 + n % 64]

/-- UTF-8 encoding of a string as a byte list. -/
def utf8Str (s : String) : List Nat :=
  s.data.flatMap utf8Char

/-- The base64 alphabet as a character list. -/
def b64Alphabet : List Char :=
  "ABCDEFGHIJKLMNOPQRSTUVWXYZabcdefghijklmnopqrstuvwxyz0123456789+/".data

/-- The base64 digit for a 6-bit group. -/
def b64Char (n : Nat) : Char :=
  b64Alphabet.getD n 'A'

/-- `base64.b64encode` on a byte list, with `=` padding. -/
def b64encode : List Nat → List Char
  | [] => []
  | [a] => [b64Char (a / 4), b64Char (a % 4 * 16), '=', '=']
  | [a, b] => [b64Char (a / 4), b64Char (a % 4 * 16 + b / 16), b64Char (b % 16 * 4), '=']
  | a :: b :: c :: rest =>
    b64Char (a / 4) :: b64Char (a % 4 * 16 + b / 16) ::
      b64Char (b % 16 * 4 + c / 64) :: b64Char (c % 64) :: b64encode rest

/-- The value of the `Authorization` header `__init__` precomputes:
`"Basic " + base64(utf8(token + ":"))`. -/
def authHeaderValue (token : String) : String :=
  "Basic " ++ String.mk (b64encode (utf8Str (token ++ ":")))

/-- `SonarQubeHandler.__init__`: reads `SONAR_HOST_URL` (defaulting to
`https://sonarcloud.io`) and `SONAR_TOKEN`; raises `ValueError` when the
token is unset or empty (falsy); otherwise precomputes the Basic auth
header. The first component is the list of HTTP requests issued: none. -/
def mkHandler (env : Env) : List Request × Except Err Handler :=
  let sonar_host := env.host.getD "https://sonarcloud.io"
  match env.token with
  | none => ([], .error (.config "SONAR_TOKEN environment variable is missing"))
  | some t =>
    if t = "" then ([], .error (.config "SONAR_TOKEN environment variable is missing"))
    else ([], .ok ⟨sonar_host, [("Authorization", authHeaderValue t)]⟩)

/-- `SonarQubeHandler._get` after the request is on the wire:
`raise_for_status()` turns a non-2xx status into an error carrying status
and body; a 2xx response yields the decoded JSON body. -/
def doGet (o : Oracle) (req : Request) : Except Err Json :=
  match o req with
  | .fail => .error .transport
  | .resp status body =>
    if 200 ≤ status ∧ status < 300 then .ok body
    else .error (.upstream status body)

/-- The request `get_bug_details` sends. -/
def bugSearchRequest (h : Handler) (project_key : String) : Request :=
  ⟨"/api/issues/search",
    [("componentKeys", .s project_key), ("types", .s "BUG"), ("ps", .n 100)],
    h.headers⟩

/-- The first request `get_vulnerability_details` sends. -/
def vulnSearchRequest (h : Handler) (project_key : String) : Request :=
  ⟨"/api/issues/search",
    [("componentKeys", .s project_key), ("types", .s "VULNERABILITY"), ("ps", .n 100)],
    h.headers⟩

/-- The second request `get_vulnerability_details` sends. -/
def hotspotSearchRequest (h : Handler) (project_key : String) : Request :=
  ⟨"/api/hotspots/search",
    [("projectKey", .s project_key), ("ps", .n 100)],
    h.headers⟩

/-- The request `get_quality_gate_status` sends. -/
def qualityGateRequest (h : Handler) (project_key : String) : Request :=
  ⟨"/api/qualitygates/project_status",
    [("projectKey", .s project_key)],
    h.headers⟩

/-- One bug entry of `get_bug_details`' result dict (values are still
decoded JSON; an absent upstream `line` is the JSON null, as Python's
`dict.get` yields `None` for it). -/
structure Issue where
  issue_key : Json
  rule : Json
  severity : Json
  message : Json
  file_path : Json
  line : Json
  status : Json

/-- One entry of `get_vulnerability_details`' merged list. -/
structure VulnEntry where
  issue_key : Json
  type : Json
  rule : Json
  severity : Json
  message : Json
  file_path : Json
  line : Json
  status : Json

/-- The dict `get_bug_details` returns. -/
structure BugReport where
  project_key : String
  bug_count : Nat
  bugs : List Issue

/-- The dict `get_vulnerability_details` returns. -/
structure VulnReport where
  project_key : String
  vulnerability_count : Nat
  vulnerabilities : List VulnEntry

/-- The dict `get_quality_gate_status` returns. -/
structure QGResult where
  project_key : String
  quality_gate_status : Json

/-- What a public operation produces: the handler as it stands afterwards,
the HTTP requests issued in order, and the result or the raised error. -/
structure OpResult (α : Type) where
  handler : Handler
  calls : List Request
  result : Except Err α

/-- The loop body of `get_bug_details`: one upstream issue record to one
bug entry, failing on the first absent required field (the dict literal's
values are evaluated in source order). -/
def mapBugIssue (issue : Json) : Except Err Issue :=
  match issue.getItem "key" with
  | .error e => .error e
  | .ok vkey =>
  match issue.getItem "rule" with
  | .error e => .error e
  | .ok vrule =>
  match issue.getItem "severity" with
  | .error e => .error e
  | .ok vsev =>
  match issue.getItem "message" with
  | .error e => .error e
  | .ok vmsg =>
  match issue.getItem "component" with
  | .error e => .error e
  | .ok vcomp =>
  match issue.getOpt "line" with
  | .error e => .error e
  | .ok vline =>
  match issue.getItem "status" with
  | .error e => .error e
  | .ok vstatus => .ok ⟨vkey, vrule, vsev, vmsg, vcomp, vline.getD .null, vstatus⟩

/-- The first loop body of `get_vulnerability_details`: one upstream
VULNERABILITY issue record to one merged entry, `type` copied from the
record. -/
def mapVulnIssue (issue : Json) : Except Err VulnEntry :=
  match issue.getItem "key" with
  | .error e => .error e
  | .ok vkey =>
  match issue.getItem "type" with
  | .error e => .error e
  | .ok vtype =>
  match issue.getItem "rule" with
  | .error e => .error e
  | .ok vrule =>
  match issue.getItem "severity" with
  | .error e => .error e
  | .ok vsev =>
  match issue.getItem "message" with
  | .error e => .error e
  | .ok vmsg =>
  match issue.getItem "component" with
  | .error e => .error e
  | .ok vcomp =>
  match issue.getOpt "line" with
  | .error e => .error e
  | .ok vline =>
  match issue.getItem "status" with
  | .error e => .error e
  | .ok vstatus => .ok ⟨vkey, vtype, vrule, vsev, vmsg, vcomp, vline.getD .null, vstatus⟩

/-- The second loop body of `get_vulnerability_details`: one upstream
hotspot record to one merged entry, `type` fixed to `"SECURITY_HOTSPOT"`,
`severity` taken from `vulnerabilityProbability`, `rule` from `ruleKey`. -/
def mapHotspot (hotspot : Json) : Except Err VulnEntry :=
  match hotspot.getItem "key" with
  | .error e => .error e
  | .ok vkey =>
  match hotspot.getItem "ruleKey" with
  | .error e => .error e
  | .ok vrk =>
  match hotspot.getItem "vulnerabilityProbability" with
  | .error e => .error e
  | .ok vprob =>
  match hotspot.getItem "message" with
  | .error e => .error e
  | .ok vmsg =>
  match hotspot.getItem "component" with
  | .error e => .error e
  | .ok vcomp =>
  match hotspot.getOpt "line" with
  | .error e => .error e
  | .ok vline =>
  match hotspot.getItem "status" with
  | .error e => .error e
  | .ok vstatus =>
    .ok ⟨vkey, .str "SECURITY_HOTSPOT", vrk, vprob, vmsg, vcomp, vline.getD .null, vstatus⟩

/-- A Python `for`-append loop over records: map each element, stopping at
the first raised error (no partial list survives an exception). -/
def mapME {α : Type} (f : Json → Except Err α) : List Json → Except Err (List α)
  | [] => .ok []
  | x :: xs =>
    match f x with
    | .error e => .error e
    | .ok y =>
      match mapME f xs with
      | .error e => .error e
      | .ok ys => .ok (y :: ys)

/-- The parse phase of `get_bug_details` on the decoded body. -/
def parseBugs (data : Json) : Except Err (List Issue) :=
  match data.getList "issues" with
  | .error e => .error e
  | .ok xs => mapME mapBugIssue xs

/-- The first parse phase of `get_vulnerability_details`. -/
def parseVulnIssues (data : Json) : Except Err (List VulnEntry) :=
  match data.getList "issues" with
  | .error e => .error e
  | .ok xs => mapME mapVulnIssue xs

/-- The second parse phase of `get_vulnerability_details`. -/
def parseHotspots (data : Json) : Except Err (List VulnEntry) :=
  match data.getList "hotspots" with
  | .error e => .error e
  | .ok xs => mapME mapHotspot xs

/-- `data["projectStatus"]["status"]` in `get_quality_gate_status`. -/
def qgStatusOf (data : Json) : Except Err Json :=
  match data.getItem "projectStatus" with
  | .error e => .error e
  | .ok ps => ps.getItem "status"

/-- `get_bug_details`: one GET to the issue-search endpoint, then the
mapping loop, then the report dict. -/
def get_bug_details (h : Handler) (o : Oracle) (project_key : String) :
    OpResult BugReport :=
  let req := bugSearchRequest h project_key
  match doGet o req with
  | .error e => ⟨h, [req], .error e⟩
  | .ok data =>
    match parseBugs data with
    | .error e => ⟨h, [req], .error e⟩
    | .ok bugs => ⟨h, [req], .ok ⟨project_key, bugs.length, bugs⟩⟩

/-- `get_vulnerability_details`: the issue-search GET and its loop, then
the hotspot-search GET and its loop, then the merged report. An error at
any stage propagates and the later stages never run. -/
def get_vulnerability_details (h : Handler) (o : Oracle) (project_key : String) :
    OpResult VulnReport :=
  let req1 := vulnSearchRequest h project_key
  match doGet o req1 with
  | .error e => ⟨h, [req1], .error e⟩
  | .ok vuln_data =>
    match parseVulnIssues vuln_data with
    | .error e => ⟨h, [req1], .error e⟩
    | .ok vulns =>
      let req2 := hotspotSearchRequest h project_key
      match doGet o req2 with
      | .error e => ⟨h, [req1, req2], .error e⟩
      | .ok hotspot_data =>
        match parseHotspots hotspot_data with
        | .error e => ⟨h, [req1, req2], .error e⟩
        | .ok hots =>
          ⟨h, [req1, req2],
            .ok ⟨project_key, (vulns ++ hots).length, vulns ++ hots⟩⟩

/-- `get_quality_gate_status`: one GET to the quality-gate endpoint, then
the `projectStatus.status` lookup. -/
def get_quality_gate_status (h : Handler) (o : Oracle) (project_key : String) :
    OpResult QGResult :=
  let req := qualityGateRequest h project_key
  match doGet o req with
  | .error e => ⟨h, [req], .error e⟩
  | .ok data =>
    match qgStatusOf data with
    | .error e => ⟨h, [req], .error e⟩
    | .ok st => ⟨h, [req], .ok ⟨project_key, st⟩⟩

/-- Did the network side fail for this request: transport failure or a
non-2xx status? -/
def httpFails : HttpResp → Prop
  | .fail => True
  | .resp s _ => s < 200 ∨ 300 ≤ s

/-- The error `_get` raises for a failed request. -/
def httpErrOf : HttpResp → Err
  | .fail => .transport
  | .resp s b => .upstream s b

/-! Concrete fixtures used to evaluate the theorems on closed inputs. -/

/-- A handler as constructed from a token `"t"`. -/
def handlerT : Handler :=
  ⟨"https://sonarcloud.io", [("Authorization", authHeaderValue "t")]⟩

/-- A well-formed VULNERABILITY issue record. -/
def sampleVulnRec : Json :=
  .obj [("key", .str "v1"), ("type", .str "VULNERABILITY"), ("rule", .str "r1"),
    ("severity", .str "MAJOR"), ("message", .str "m1"), ("component", .str "c1"),
    ("line", .num 3), ("status", .str "OPEN")]

/-- A well-formed hotspot record (no `line` field). -/
def sampleHotspotRec : Json :=
  .obj [("key", .str "h1"), ("ruleKey", .str "rk1"),
    ("vulnerabilityProbability", .str "HIGH"), ("message", .str "m2"),
    ("component", .str "c2"), ("status", .str "TO_REVIEW")]

/-- A well-formed BUG issue record. -/
def sampleBugRec : Json :=
  .obj [("key", .str "b1"), ("rule", .str "r2"), ("severity", .str "MINOR"),
    ("message", .str "m3"), ("component", .str "c3"), ("line", .num 7),
    ("status", .str "OPEN")]

/-- The merged entry the sample hotspot record maps to. -/
def sampleHotspotEntry : VulnEntry :=
  ⟨.str "h1", .str "SECURITY_HOTSPOT", .str "rk1", .str "HIGH", .str "m2",
    .str "c2", .null, .str "TO_REVIEW"⟩

/-- The merged entry the sample vulnerability record maps to. -/
def sampleVulnEntry : VulnEntry :=
  ⟨.str "v1", .str "VULNERABILITY", .str "r1", .str "MAJOR", .str "m1",
    .str "c1", .num 3, .str "OPEN"⟩

/-- The bug entry the sample BUG record maps to. -/
def sampleBugEntry : Issue :=
  ⟨.str "b1", .str "r2", .str "MINOR", .str "m3", .str "c3", .num 7, .str "OPEN"⟩

/-- An upstream that answers every request well-formed: one issue on the
issue-search endpoint, one hotspot on the hotspot-search endpoint, an OK
quality gate otherwise. -/
def oracleHealthy : Oracle := fun r =>
  if r.endpoint = "/api/issues/search" then
    .resp 200 (.obj [("issues", .arr [sampleVulnRec])])
  else if r.endpoint = "/api/hotspots/search" then
    .resp 200 (.obj [("hotspots", .arr [sampleHotspotRec])])
  else
    .resp 200 (.obj [("projectStatus", .obj [("status", .str "OK")])])

/-- An upstream answering the bug search with one BUG record. -/
def oracleBug : Oracle := fun _ =>
  .resp 200 (.obj [("issues", .arr [sampleBugRec])])

/-- An upstream whose hotspot endpoint is unreachable while the issue
search succeeds. -/
def oracleHotspotDown : Oracle := fun r =>
  if r.endpoint = "/api/hotspots/search" then .fail
  else .resp 200 (.obj [("issues", .arr [sampleVulnRec])])

/-- An upstream returning a 2xx issue-search body with one record that
lacks the required `rule` field. -/
def oracleMissingRule : Oracle := fun _ =>
  .resp 200 (.obj [("issues", .arr [.obj [("key", .str "b1")]])])

/-- An upstream whose 2xx quality-gate body lacks `projectStatus`. -/
def oracleNoProjectStatus : Oracle := fun _ =>
  .resp 200 (.obj [])

/-- An upstream that answers every request with HTTP 404. -/
def oracle404 : Oracle := fun _ =>
  .resp 404 (.str "not found")

/-- An upstream whose 2xx bodies are objects without the `issues` and
`hotspots` list keys. -/
def oracleEmptyBodies : Oracle := fun _ =>
  .resp 200 (.obj [("paging", .num 1)])

/-! Helper lemmas: how `_get` and the three operations unfold. -/

theorem doGet_resp_ok {o : Oracle} {req : Request} {s : Nat} {b : Json}
    (h1 : o req = .resp s b) (h2 : 200 ≤ s) (h3 : s < 300) :
    doGet o req = .ok b := by
  simp [doGet, h1, h2, h3]

theorem doGet_resp_err {o : Oracle} {req : Request} {s : Nat} {b : Json}
    (h1 : o req = .resp s b) (h2 : s < 200 ∨ 300 ≤ s) :
    doGet o req = .error (.upstream s b) := by
  have hn : ¬ (200 ≤ s ∧ s < 300) := by omega
  simp [doGet, h1, hn]

theorem doGet_fail_eq {o : Oracle} {req : Request}
    (h1 : o req = .fail) : doGet o req = .error .transport := by
  simp [doGet, h1]

theorem doGet_fails {o : Oracle} {req : Request} (h1 : httpFails (o req)) :
    doGet o req = .error (httpErrOf (o req)) := by
  cases h2 : o req with
  | fail => simp [doGet, h2, httpErrOf]
  | resp s b =>
    rw [h2] at h1
    exact doGet_resp_err h2 h1

theorem get_bug_details_err {h : Handler} {o : Oracle} {pk : String} {e : Err}
    (h1 : doGet o (bugSearchRequest h pk) = .error e) :
    get_bug_details h o pk = ⟨h, [bugSearchRequest h pk], .error e⟩ := by
  simp only [get_bug_details, h1]

theorem get_bug_details_parse_err {h : Handler} {o : Oracle} {pk : String}
    {b : Json} {e : Err}
    (h1 : doGet o (bugSearchRequest h pk) = .ok b) (h2 : parseBugs b = .error e) :
    get_bug_details h o pk = ⟨h, [bugSearchRequest h pk], .error e⟩ := by
  simp only [get_bug_details, h1, h2]

theorem get_bug_details_ok {h : Handler} {o : Oracle} {pk : String}
    {b : Json} {bugs : List Issue}
    (h1 : doGet o (bugSearchRequest h pk) = .ok b) (h2 : parseBugs b = .ok bugs) :
    get_bug_details h o pk =
      ⟨h, [bugSearchRequest h pk], .ok ⟨pk, bugs.length, bugs⟩⟩ := by
  simp only [get_bug_details, h1, h2]

theorem gvd_err1 {h : Handler} {o : Oracle} {pk : String} {e : Err}
    (h1 : doGet o (vulnSearchRequest h pk) = .error e) :
    get_vulnerability_details h o pk = ⟨h, [vulnSearchRequest h pk], .error e⟩ := by
  simp only [get_vulnerability_details, h1]

theorem gvd_parse1_err {h : Handler} {o : Oracle} {pk : String} {b : Json} {e : Err}
    (h1 : doGet o (vulnSearchRequest h pk) = .ok b)
    (h2 : parseVulnIssues b = .error e) :
    get_vulnerability_details h o pk = ⟨h, [vulnSearchRequest h pk], .error e⟩ := by
  simp only [get_vulnerability_details, h1, h2]

theorem gvd_err2 {h : Handler} {o : Oracle} {pk : String} {b : Json}
    {vulns : List VulnEntry} {e : Err}
    (h1 : doGet o (vulnSearchRequest h pk) = .ok b)
    (h2 : parseVulnIssues b = .ok vulns)
    (h3 : doGet o (hotspotSearchRequest h pk) = .error e) :
    get_vulnerability_details h o pk =
      ⟨h, [vulnSearchRequest h pk, hotspotSearchRequest h pk], .error e⟩ := by
  simp only [get_vulnerability_details, h1, h2, h3]

theorem gvd_parse2_err {h : Handler} {o : Oracle} {pk : String} {b b2 : Json}
    {vulns : List VulnEntry} {e : Err}
    (h1 : doGet o (vulnSearchRequest h pk) = .ok b)
    (h2 : parseVulnIssues b = .ok vulns)
    (h3 : doGet o (hotspotSearchRequest h pk) = .ok b2)
    (h4 : parseHotspots b2 = .error e) :
    get_vulnerability_details h o pk =
      ⟨h, [vulnSearchRequest h pk, hotspotSearchRequest h pk], .error e⟩ := by
  simp only [get_vulnerability_details, h1, h2, h3, h4]

theorem gvd_ok {h : Handler} {o : Oracle} {pk : String} {b b2 : Json}
    {vulns hots : List VulnEntry}
    (h1 : doGet o (vulnSearchRequest h pk) = .ok b)
    (h2 : parseVulnIssues b = .ok vulns)
    (h3 : doGet o (hotspotSearchRequest h pk) = .ok b2)
    (h4 : parseHotspots b2 = .ok hots) :
    get_vulnerability_details h o pk =
      ⟨h, [vulnSearchRequest h pk, hotspotSearchRequest h pk],
        .ok ⟨pk, (vulns ++ hots).length, vulns ++ hots⟩⟩ := by
  simp only [get_vulnerability_details, h1, h2, h3, h4]

theorem gqs_err {h : Handler} {o : Oracle} {pk : String} {e : Err}
    (h1 : doGet o (qualityGateRequest h pk) = .error e) :
    get_quality_gate_status h o pk = ⟨h, [qualityGateRequest h pk], .error e⟩ := by
  simp only [get_quality_gate_status, h1]

theorem gqs_parse_err {h : Handler} {o : Oracle} {pk : String} {b : Json} {e : Err}
    (h1 : doGet o (qualityGateRequest h pk) = .ok b) (h2 : qgStatusOf b = .error e) :
    get_quality_gate_status h o pk = ⟨h, [qualityGateRequest h pk], .error e⟩ := by
  simp only [get_quality_gate_status, h1, h2]

theorem gqs_ok {h : Handler} {o : Oracle} {pk : String} {b st : Json}
    (h1 : doGet o (qualityGateRequest h pk) = .ok b) (h2 : qgStatusOf b = .ok st) :
    get_quality_gate_status h o pk = ⟨h, [qualityGateRequest h pk], .ok ⟨pk, st⟩⟩ := by
  simp only [get_quality_gate_status, h1, h2]

/-! Helper lemmas about the mapping loop. -/

theorem mapME_length {α : Type} {f : Json → Except Err α} :
    ∀ {xs : List Json} {ys : List α}, mapME f xs = .ok ys → ys.length = xs.length
  | [], ys, h => by
    simp only [mapME] at h
    injection h with h
    subst h
    rfl
  | x :: xs, ys, h => by
    simp only [mapME] at h
    cases hfx : f x with
    | error e => rw [hfx] at h; exact Except.noConfusion h
    | ok y =>
      rw [hfx] at h
      cases hm : mapME f xs with
      | error e => rw [hm] at h; exact Except.noConfusion h
      | ok zs =>
        rw [hm] at h
        injection h with h
        subst h
        simp [mapME_length hm]

theorem mapME_getElem {α : Type} {f : Json → Except Err α} :
    ∀ {xs : List Json} {ys : List α} {i : Nat} {x : Json},
      mapME f xs = .ok ys → xs[i]? = some x → ∃ y, f x = .ok y ∧ ys[i]? = some y
  | [], _, i, x, _, hx => by simp at hx
  | a :: as, ys, i, x, h, hx => by
    simp only [mapME] at h
    cases hfa : f a with
    | error e => rw [hfa] at h; exact Except.noConfusion h
    | ok y =>
      rw [hfa] at h
      cases hm : mapME f as with
      | error e => rw [hm] at h; exact Except.noConfusion h
      | ok zs =>
        rw [hm] at h
        injection h with h
        subst h
        cases i with
        | zero =>
          simp only [List.getElem?_cons_zero, Option.some.injEq] at hx
          subst hx
          exact ⟨y, hfa, by simp⟩
        | succ j =>
          simp only [List.getElem?_cons_succ] at hx ⊢
          exact mapME_getElem hm hx

theorem mapME_error {α : Type} {f : Json → Except Err α} :
    ∀ (xs : List Json) (i : Nat) (x : Json) (e : Err),
      xs[i]? = some x → f x = .error e →
      (∀ j y, j < i → xs[j]? = some y → ∃ z, f y = .ok z) →
      mapME f xs = .error e
  | [], i, x, _, hx, _, _ => by simp at hx
  | a :: as, 0, x, e, hx, hfx, _ => by
    simp only [List.getElem?_cons_zero, Option.some.injEq] at hx
    subst hx
    simp only [mapME]
    rw [hfx]
  | a :: as, j + 1, x, e, hx, hfx, hprev => by
    obtain ⟨z, hz⟩ := hprev 0 a (Nat.succ_pos j) (by simp)
    have hrec := mapME_error as j x e (by simpa using hx) hfx
      (fun j2 y hj2 hy => hprev (j2 + 1) y (Nat.succ_lt_succ hj2) (by simpa using hy))
    simp only [mapME]
    rw [hz, hrec]

/-! Helper lemmas about the per-record mappings. -/

theorem mapBugIssue_eq {j vkey vrule vsev vmsg vcomp vstatus : Json} {ol : Option Json}
    (hk : j.getItem "key" = .ok vkey) (hr : j.getItem "rule" = .ok vrule)
    (hv : j.getItem "severity" = .ok vsev) (hm : j.getItem "message" = .ok vmsg)
    (hc : j.getItem "component" = .ok vcomp) (hl : j.getOpt "line" = .ok ol)
    (hst : j.getItem "status" = .ok vstatus) :
    mapBugIssue j = .ok ⟨vkey, vrule, vsev, vmsg, vcomp, ol.getD .null, vstatus⟩ := by
  simp only [mapBugIssue, hk, hr, hv, hm, hc, hl, hst]

theorem mapVulnIssue_eq {j vkey vtype vrule vsev vmsg vcomp vstatus : Json}
    {ol : Option Json}
    (hk : j.getItem "key" = .ok vkey) (ht : j.getItem "type" = .ok vtype)
    (hr : j.getItem "rule" = .ok vrule) (hv : j.getItem "severity" = .ok vsev)
    (hm : j.getItem "message" = .ok vmsg) (hc : j.getItem "component" = .ok vcomp)
    (hl : j.getOpt "line" = .ok ol) (hst : j.getItem "status" = .ok vstatus) :
    mapVulnIssue j =
      .ok ⟨vkey, vtype, vrule, vsev, vmsg, vcomp, ol.getD .null, vstatus⟩ := by
  simp only [mapVulnIssue, hk, ht, hr, hv, hm, hc, hl, hst]

theorem mapHotspot_eq {j vkey vrk vprob vmsg vcomp vstatus : Json} {ol : Option Json}
    (hk : j.getItem "key" = .ok vkey) (hrk : j.getItem "ruleKey" = .ok vrk)
    (hp : j.getItem "vulnerabilityProbability" = .ok vprob)
    (hm : j.getItem "message" = .ok vmsg) (hc : j.getItem "component" = .ok vcomp)
    (hl : j.getOpt "line" = .ok ol) (hst : j.getItem "status" = .ok vstatus) :
    mapHotspot j =
      .ok ⟨vkey, .str "SECURITY_HOTSPOT", vrk, vprob, vmsg, vcomp,
        ol.getD .null, vstatus⟩ := by
  simp only [mapHotspot, hk, hrk, hp, hm, hc, hl, hst]

/-- A bug record that is an object missing one of the six required fields
maps to a schema error naming a required field (the first absent one in
the dict literal's evaluation order). -/
theorem mapBugIssue_missing {fields : List (String × Json)} {fname : String}
    (hf : fname ∈ (["key", "rule", "severity", "message", "component", "status"] : List String))
    (hnone : fields.lookup fname = none) :
    ∃ g, g ∈ (["key", "rule", "severity", "message", "component", "status"] : List String) ∧
      mapBugIssue (.obj fields) = .error (.schema g) := by
  cases h1 : fields.lookup "key" with
  | none => exact ⟨"key", by simp, by simp [mapBugIssue, Json.getItem, h1]⟩
  | some v1 =>
  cases h2 : fields.lookup "rule" with
  | none => exact ⟨"rule", by simp, by simp [mapBugIssue, Json.getItem, h1, h2]⟩
  | some v2 =>
  cases h3 : fields.lookup "severity" with
  | none => exact ⟨"severity", by simp, by simp [mapBugIssue, Json.getItem, h1, h2, h3]⟩
  | some v3 =>
  cases h4 : fields.lookup "message" with
  | none =>
    exact ⟨"message", by simp, by simp [mapBugIssue, Json.getItem, h1, h2, h3, h4]⟩
  | some v4 =>
  cases h5 : fields.lookup "component" with
  | none =>
    exact ⟨"component", by simp,
      by simp [mapBugIssue, Json.getItem, h1, h2, h3, h4, h5]⟩
  | some v5 =>
  cases h6 : fields.lookup "status" with
  | none =>
    exact ⟨"status", by simp,
      by simp [mapBugIssue, Json.getItem, Json.getOpt, h1, h2, h3, h4, h5, h6]⟩
  | some v6 =>
    exfalso
    simp only [List.mem_cons, List.not_mem_nil, or_false] at hf
    rcases hf with rfl | rfl | rfl | rfl | rfl | rfl
    · rw [h1] at hnone; exact Option.noConfusion hnone
    · rw [h2] at hnone; exact Option.noConfusion hnone
    · rw [h3] at hnone; exact Option.noConfusion hnone
    · rw [h4] at hnone; exact Option.noConfusion hnone
    · rw [h5] at hnone; exact Option.noConfusion hnone
    · rw [h6] at hnone; exact Option.noConfusion hnone

/-- Claim C1: for every project key and pair of well-formed upstream
responses (issue search with records `vrecs`, hotspot search with records
`hrecs`), `get_vulnerability_details` returns a report whose count is
`vrecs.length + hrecs.length` and whose sequence is the mapped
vulnerability records followed by the mapped hotspot records, each
sub-sequence in upstream order. -/
theorem claim_c1_merge_concat (h : Handler) (o : Oracle) (pk : String)
    (s1 s2 : Nat) (b1 b2 : Json) (vrecs hrecs : List Json)
    (mvulns mhots : List VulnEntry)
    (ho1 : o (vulnSearchRequest h pk) = .resp s1 b1)
    (hs1 : 200 ≤ s1) (hs1' : s1 < 300)
    (hl1 : b1.getList "issues" = .ok vrecs)
    (hm1 : mapME mapVulnIssue vrecs = .ok mvulns)
    (ho2 : o (hotspotSearchRequest h pk) = .resp s2 b2)
    (hs2 : 200 ≤ s2) (hs2' : s2 < 300)
    (hl2 : b2.getList "hotspots" = .ok hrecs)
    (hm2 : mapME mapHotspot hrecs = .ok mhots) :
    (get_vulnerability_details h o pk).result =
      .ok ⟨pk, vrecs.length + hrecs.length, mvulns ++ mhots⟩ := by
  have hp1 : parseVulnIssues b1 = .ok mvulns := by
    simp only [parseVulnIssues, hl1, hm1]
  have hp2 : parseHotspots b2 = .ok mhots := by
    simp only [parseHotspots, hl2, hm2]
  rw [gvd_ok (doGet_resp_ok ho1 hs1 hs1') hp1 (doGet_resp_ok ho2 hs2 hs2') hp2]
  simp [mapME_length hm1, mapME_length hm2]

/-- Claim C1, evaluated: one vulnerability record and one hotspot record
merge into a two-element report, vulnerabilities first. -/
theorem claim_c1_witness :
    (get_vulnerability_details handlerT oracleHealthy "p").result =
      .ok ⟨"p", 2, [sampleVulnEntry, sampleHotspotEntry]⟩ :=
  claim_c1_merge_concat handlerT oracleHealthy "p" 200 200 _ _
    [sampleVulnRec] [sampleHotspotRec] [sampleVulnEntry] [sampleHotspotEntry]
    rfl (by decide) (by decide) rfl rfl rfl (by decide) (by decide) rfl rfl

/-- Claim C2: a hotspot record at index `i` of the hotspot response yields
the merged entry at index `mvulns.length + i`, with `type` the literal
`"SECURITY_HOTSPOT"`, `severity` the upstream `vulnerabilityProbability`,
`rule` the upstream `ruleKey`, and an absent `line` becoming null. -/
theorem claim_c2_hotspot_entry (h : Handler) (o : Oracle) (pk : String)
    (s1 s2 : Nat) (b1 b2 : Json) (vrecs hrecs : List Json)
    (mvulns mhots : List VulnEntry) (i : Nat) (rcd : Json)
    (vkey vrk vprob vmsg vcomp vstatus : Json) (ol : Option Json)
    (ho1 : o (vulnSearchRequest h pk) = .resp s1 b1)
    (hs1 : 200 ≤ s1) (hs1' : s1 < 300)
    (hl1 : b1.getList "issues" = .ok vrecs)
    (hm1 : mapME mapVulnIssue vrecs = .ok mvulns)
    (ho2 : o (hotspotSearchRequest h pk) = .resp s2 b2)
    (hs2 : 200 ≤ s2) (hs2' : s2 < 300)
    (hl2 : b2.getList "hotspots" = .ok hrecs)
    (hm2 : mapME mapHotspot hrecs = .ok mhots)
    (hrcd : hrecs[i]? = some rcd)
    (hk : rcd.getItem "key" = .ok vkey)
    (hrk : rcd.getItem "ruleKey" = .ok vrk)
    (hp : rcd.getItem "vulnerabilityProbability" = .ok vprob)
    (hmsg : rcd.getItem "message" = .ok vmsg)
    (hc : rcd.getItem "component" = .ok vcomp)
    (hl : rcd.getOpt "line" = .ok ol)
    (hst : rcd.getItem "status" = .ok vstatus) :
    ∃ r, (get_vulnerability_details h o pk).result = .ok r ∧
      r.vulnerabilities[mvulns.length + i]? =
        some ⟨vkey, .str "SECURITY_HOTSPOT", vrk, vprob, vmsg, vcomp,
          ol.getD .null, vstatus⟩ := by
  have hp1 : parseVulnIssues b1 = .ok mvulns := by
    simp only [parseVulnIssues, hl1, hm1]
  have hp2 : parseHotspots b2 = .ok mhots := by
    simp only [parseHotspots, hl2, hm2]
  refine ⟨⟨pk, (mvulns ++ mhots).length, mvulns ++ mhots⟩, ?_, ?_⟩
  · rw [gvd_ok (doGet_resp_ok ho1 hs1 hs1') hp1 (doGet_resp_ok ho2 hs2 hs2') hp2]
  · obtain ⟨y, hy, hylu⟩ := mapME_getElem hm2 hrcd
    have h2 := mapHotspot_eq hk hrk hp hmsg hc hl hst
    rw [hy] at h2
    injection h2 with h3
    subst h3
    show (mvulns ++ mhots)[mvulns.length + i]? = _
    rw [List.getElem?_append_right (Nat.le_add_right _ _), Nat.add_sub_cancel_left]
    exact hylu

/-- Claim C2, evaluated: the sample hotspot record (probability HIGH, no
line) lands at index 1 as a SECURITY_HOTSPOT entry with severity HIGH and
a null line. -/
theorem claim_c2_witness :
    ∃ r, (get_vulnerability_details handlerT oracleHealthy "p").result = .ok r ∧
      r.vulnerabilities[1]? = some sampleHotspotEntry :=
  claim_c2_hotspot_entry handlerT oracleHealthy "p" 200 200 _ _
    [sampleVulnRec] [sampleHotspotRec] [sampleVulnEntry] [sampleHotspotEntry]
    0 sampleHotspotRec (.str "h1") (.str "rk1") (.str "HIGH") (.str "m2")
    (.str "c2") (.str "TO_REVIEW") none
    rfl (by decide) (by decide) rfl rfl rfl (by decide) (by decide) rfl rfl
    rfl rfl rfl rfl rfl rfl rfl rfl

/-- Claim C3: for a well-formed BUG issue-search response with records
`recs`, `get_bug_details` returns count `recs.length` and the bugs in
upstream order; the entry at index `i` carries the record's `key`, `rule`,
`severity`, `message`, `component`, optional `line` and `status`. -/
theorem claim_c3_bug_report (h : Handler) (o : Oracle) (pk : String)
    (s1 : Nat) (b1 : Json) (recs : List Json) (bugs : List Issue)
    (i : Nat) (rcd vkey vrule vsev vmsg vcomp vstatus : Json) (ol : Option Json)
    (ho1 : o (bugSearchRequest h pk) = .resp s1 b1)
    (hs1 : 200 ≤ s1) (hs1' : s1 < 300)
    (hl1 : b1.getList "issues" = .ok recs)
    (hm1 : mapME mapBugIssue recs = .ok bugs)
    (hrcd : recs[i]? = some rcd)
    (hk : rcd.getItem "key" = .ok vkey)
    (hr : rcd.getItem "rule" = .ok vrule)
    (hv : rcd.getItem "severity" = .ok vsev)
    (hmsg : rcd.getItem "message" = .ok vmsg)
    (hc : rcd.getItem "component" = .ok vcomp)
    (hl : rcd.getOpt "line" = .ok ol)
    (hst : rcd.getItem "status" = .ok vstatus) :
    (get_bug_details h o pk).result = .ok ⟨pk, recs.length, bugs⟩ ∧
      bugs[i]? = some ⟨vkey, vrule, vsev, vmsg, vcomp, ol.getD .null, vstatus⟩ := by
  have hp1 : parseBugs b1 = .ok bugs := by
    simp only [parseBugs, hl1, hm1]
  constructor
  · rw [get_bug_details_ok (doGet_resp_ok ho1 hs1 hs1') hp1]
    simp [mapME_length hm1]
  · obtain ⟨y, hy, hylu⟩ := mapME_getElem hm1 hrcd
    have h2 := mapBugIssue_eq hk hr hv hmsg hc hl hst
    rw [hy] at h2
    injection h2 with h3
    subst h3
    exact hylu

/-- Claim C3, evaluated: one BUG record yields a one-element report with
the fields mapped through. -/
theorem claim_c3_witness :
    (get_bug_details handlerT oracleBug "p").result =
      .ok ⟨"p", 1, [sampleBugEntry]⟩ ∧
      [sampleBugEntry][0]? = some sampleBugEntry :=
  claim_c3_bug_report handlerT oracleBug "p" 200 _ [sampleBugRec] [sampleBugEntry]
    0 sampleBugRec (.str "b1") (.str "r2") (.str "MINOR") (.str "m3") (.str "c3")
    (.str "OPEN") (some (.num 7))
    rfl (by decide) (by decide) rfl rfl rfl rfl rfl rfl rfl rfl rfl rfl

/-- Claim C4: if either of the two sequential GETs inside
`get_vulnerability_details` fails (transport failure or non-2xx), the
whole operation returns an error and no partial report; when the first
call fails it is that call's error, and when the first call succeeded and
parsed, it is the second call's error. -/
theorem claim_c4_all_or_nothing (h : Handler) (o : Oracle) (pk : String)
    (hfail : httpFails (o (vulnSearchRequest h pk)) ∨
      httpFails (o (hotspotSearchRequest h pk))) :
    (∃ e, (get_vulnerability_details h o pk).result = .error e) ∧
    (httpFails (o (vulnSearchRequest h pk)) →
      (get_vulnerability_details h o pk).result =
        .error (httpErrOf (o (vulnSearchRequest h pk)))) ∧
    (∀ b1 vulns, doGet o (vulnSearchRequest h pk) = .ok b1 →
      parseVulnIssues b1 = .ok vulns →
      (get_vulnerability_details h o pk).result =
        .error (httpErrOf (o (hotspotSearchRequest h pk)))) := by
  by_cases hf1 : httpFails (o (vulnSearchRequest h pk))
  · have hd1 := doGet_fails hf1
    have hres := gvd_err1 hd1
    refine ⟨⟨_, by rw [hres]⟩, fun _ => by rw [hres], ?_⟩
    intro b1 vulns hok _
    rw [hd1] at hok
    exact Except.noConfusion hok
  · have hf2 : httpFails (o (hotspotSearchRequest h pk)) := hfail.resolve_left hf1
    have hd2 := doGet_fails hf2
    cases h1 : o (vulnSearchRequest h pk) with
    | fail => exact absurd (by rw [h1]; trivial) hf1
    | resp s b =>
      have hnot : ¬ (s < 200 ∨ 300 ≤ s) := by
        rw [h1] at hf1
        exact hf1
      have hd1 : doGet o (vulnSearchRequest h pk) = .ok b :=
        doGet_resp_ok h1 (by omega) (by omega)
      cases hparse : parseVulnIssues b with
      | error e =>
        have hres := gvd_parse1_err hd1 hparse
        refine ⟨⟨e, by rw [hres]⟩, fun hf => absurd hf (h1 ▸ hf1), ?_⟩
        intro b1 vulns hok hpv
        rw [hd1] at hok
        injection hok with hb
        subst hb
        rw [hparse] at hpv
        exact Except.noConfusion hpv
      | ok vulns =>
        have hres := gvd_err2 hd1 hparse hd2
        exact ⟨⟨_, by rw [hres]⟩, fun hf => absurd hf (h1 ▸ hf1),
          fun b1 vulns2 hok hpv => by rw [hres]⟩

/-- Claim C4, evaluated: when only the hotspot call fails (transport), the
whole merge fails with that error and no vulnerability-only report is
returned. -/
theorem claim_c4_witness :
    (get_vulnerability_details handlerT oracleHotspotDown "p").result =
      .error .transport :=
  (claim_c4_all_or_nothing handlerT oracleHotspotDown "p"
      (Or.inr trivial)).2.2
    (.obj [("issues", .arr [sampleVulnRec])]) [sampleVulnEntry] rfl rfl

/-- Claim C5: a 2xx issue-search response in which the record at index `i`
is an object lacking a required field (and the earlier records are
well formed) makes `get_bug_details` fail with a schema error naming a
required field; no partial bug list is returned. -/
theorem claim_c5_schema_error (h : Handler) (o : Oracle) (pk : String)
    (s1 : Nat) (b1 : Json) (recs : List Json) (i : Nat)
    (fields : List (String × Json)) (fname : String)
    (ho1 : o (bugSearchRequest h pk) = .resp s1 b1)
    (hs1 : 200 ≤ s1) (hs1' : s1 < 300)
    (hl1 : b1.getList "issues" = .ok recs)
    (hrcd : recs[i]? = some (.obj fields))
    (hf : fname ∈ (["key", "rule", "severity", "message", "component", "status"] : List String))
    (hnone : fields.lookup fname = none)
    (hprev : ∀ j y, j < i → recs[j]? = some y → ∃ z, mapBugIssue y = .ok z) :
    ∃ g, g ∈ (["key", "rule", "severity", "message", "component", "status"] : List String) ∧
      (get_bug_details h o pk).result = .error (.schema g) := by
  obtain ⟨g, hg, hmap⟩ := mapBugIssue_missing hf hnone
  have herr : mapME mapBugIssue recs = .error (.schema g) :=
    mapME_error recs i (.obj fields) (.schema g) hrcd hmap hprev
  have hpb : parseBugs b1 = .error (.schema g) := by
    simp only [parseBugs, hl1, herr]
  have hres := get_bug_details_parse_err (doGet_resp_ok ho1 hs1 hs1') hpb
  exact ⟨g, hg, by rw [hres]⟩

/-- Claim C5, evaluated: a single record `{"key": "b1"}` (missing `rule`)
makes `get_bug_details` fail with a schema error on a required field. -/
theorem claim_c5_witness :
    ∃ g, g ∈ (["key", "rule", "severity", "message", "component", "status"] : List String) ∧
      (get_bug_details handlerT oracleMissingRule "p").result = .error (.schema g) :=
  claim_c5_schema_error handlerT oracleMissingRule "p" 200 _
    [.obj [("key", .str "b1")]] 0 [("key", .str "b1")] "rule"
    rfl (by decide) (by decide) rfl rfl (by decide) rfl
    (fun j y hj _ => absurd hj (Nat.not_lt_zero j))

/-- Claim C6: on a 2xx quality-gate response the operation passes the
upstream `projectStatus.status` value through unchanged (no validation
against an enumeration), and fails with a schema error naming the missing
key when the `projectStatus.status` path is absent. -/
theorem claim_c6_quality_gate (h : Handler) (o : Oracle) (pk : String)
    (s1 : Nat) (b1 : Json)
    (ho1 : o (qualityGateRequest h pk) = .resp s1 b1)
    (hs1 : 200 ≤ s1) (hs1' : s1 < 300) :
    (∀ ps st, b1.getItem "projectStatus" = .ok ps → ps.getItem "status" = .ok st →
      (get_quality_gate_status h o pk).result = .ok ⟨pk, st⟩) ∧
    (∀ fields, b1 = .obj fields → fields.lookup "projectStatus" = none →
      (get_quality_gate_status h o pk).result = .error (.schema "projectStatus")) ∧
    (∀ ps pfields, b1.getItem "projectStatus" = .ok ps → ps = .obj pfields →
      pfields.lookup "status" = none →
      (get_quality_gate_status h o pk).result = .error (.schema "status")) := by
  have hd := doGet_resp_ok ho1 hs1 hs1'
  refine ⟨?_, ?_, ?_⟩
  · intro ps st hps hst
    have hq : qgStatusOf b1 = .ok st := by simp only [qgStatusOf, hps, hst]
    rw [gqs_ok hd hq]
  · intro fields hb hnone
    have hq : qgStatusOf b1 = .error (.schema "projectStatus") := by
      subst hb
      simp only [qgStatusOf, Json.getItem, hnone]
    rw [gqs_parse_err hd hq]
  · intro ps pfields hps hobj hnone
    have hq : qgStatusOf b1 = .error (.schema "status") := by
      subst hobj
      simp only [qgStatusOf, hps]
      simp only [Json.getItem, hnone]
    rw [gqs_parse_err hd hq]

/-- Claim C6, evaluated: an `OK` status is passed through, and a body
without `projectStatus` raises a schema error for that key. -/
theorem claim_c6_witness :
    (get_quality_gate_status handlerT oracleHealthy "p").result =
      .ok ⟨"p", .str "OK"⟩ ∧
    (get_quality_gate_status handlerT oracleNoProjectStatus "p").result =
      .error (.schema "projectStatus") :=
  ⟨(claim_c6_quality_gate handlerT oracleHealthy "p" 200 _ rfl (by decide)
      (by decide)).1 (.obj [("status", .str "OK")]) (.str "OK") rfl rfl,
   (claim_c6_quality_gate handlerT oracleNoProjectStatus "p" 200 _ rfl (by decide)
      (by decide)).2.1 [] rfl rfl⟩

/-- Claim C7: construction performs zero network calls, fails with a
configuration error exactly when the credential is unset or empty, and on
success precomputes the `Authorization` header once as
`Basic base64(credential + ":")`. -/
theorem claim_c7_construction (env : Env) :
    (mkHandler env).1 = [] ∧
    ((env.token = none ∨ env.token = some "") →
      (mkHandler env).2 =
        .error (.config "SONAR_TOKEN environment variable is missing")) ∧
    (∀ t, env.token = some t → t ≠ "" →
      (mkHandler env).2 = .ok ⟨env.host.getD "https://sonarcloud.io",
        [("Authorization", authHeaderValue t)]⟩) := by
  obtain ⟨host, token⟩ := env
  cases token with
  | none =>
    refine ⟨rfl, fun _ => rfl, ?_⟩
    intro t ht _
    exact Option.noConfusion ht
  | some t =>
    by_cases h0 : t = ""
    · subst h0
      refine ⟨rfl, fun _ => rfl, ?_⟩
      intro t2 ht hne
      injection ht with ht
      exact absurd ht.symm hne
    · refine ⟨?_, ?_, ?_⟩
      · simp [mkHandler, h0]
      · intro habs
        rcases habs with hcase | hcase
        · exact Option.noConfusion hcase
        · injection hcase with hcase
          exact absurd hcase h0
      · intro t2 ht hne
        injection ht with ht
        subst ht
        simp [mkHandler, h0]

/-- Claim C7, evaluated: no token fails, token `"t"` succeeds with the
precomputed Basic header and no network call. -/
theorem claim_c7_witness :
    (mkHandler ⟨none, none⟩).1 = [] ∧
    (mkHandler ⟨none, none⟩).2 =
      .error (.config "SONAR_TOKEN environment variable is missing") ∧
    (mkHandler ⟨none, some "t"⟩).2 =
      .ok ⟨"https://sonarcloud.io", [("Authorization", authHeaderValue "t")]⟩ :=
  ⟨(claim_c7_construction ⟨none, none⟩).1,
   (claim_c7_construction ⟨none, none⟩).2.1 (Or.inl rfl),
   (claim_c7_construction ⟨none, some "t"⟩).2.2 "t" rfl (by decide)⟩

/-- Claim C8: the internal GET yields the decoded body exactly on a 2xx
status, an upstream error carrying status and body on a non-2xx status, a
transport error on network failure; a non-2xx status (such as 404)
propagates unchanged out of all three public operations. -/
theorem claim_c8_get_contract (h : Handler) (o : Oracle) (pk : String)
    (req : Request) (s : Nat) (b : Json) :
    (o req = .fail → doGet o req = .error .transport) ∧
    (o req = .resp s b → 200 ≤ s → s < 300 → doGet o req = .ok b) ∧
    (o req = .resp s b → s < 200 ∨ 300 ≤ s →
      doGet o req = .error (.upstream s b)) ∧
    (o (bugSearchRequest h pk) = .resp s b → s < 200 ∨ 300 ≤ s →
      (get_bug_details h o pk).result = .error (.upstream s b)) ∧
    (o (vulnSearchRequest h pk) = .resp s b → s < 200 ∨ 300 ≤ s →
      (get_vulnerability_details h o pk).result = .error (.upstream s b)) ∧
    (o (qualityGateRequest h pk) = .resp s b → s < 200 ∨ 300 ≤ s →
      (get_quality_gate_status h o pk).result = .error (.upstream s b)) := by
  refine ⟨fun h1 => doGet_fail_eq h1, fun h1 h2 h3 => doGet_resp_ok h1 h2 h3,
    fun h1 h2 => doGet_resp_err h1 h2, ?_, ?_, ?_⟩
  · intro h1 h2
    rw [get_bug_details_err (doGet_resp_err h1 h2)]
  · intro h1 h2
    rw [gvd_err1 (doGet_resp_err h1 h2)]
  · intro h1 h2
    rw [gqs_err (doGet_resp_err h1 h2)]

/-- Claim C8, evaluated: an upstream answering 404 everywhere yields an
upstream error with status 404 from all three operations. -/
theorem claim_c8_witness :
    (get_bug_details handlerT oracle404 "p").result =
      .error (.upstream 404 (.str "not found")) ∧
    (get_vulnerability_details handlerT oracle404 "p").result =
      .error (.upstream 404 (.str "not found")) ∧
    (get_quality_gate_status handlerT oracle404 "p").result =
      .error (.upstream 404 (.str "not found")) :=
  ⟨(claim_c8_get_contract handlerT oracle404 "p"
      (bugSearchRequest handlerT "p") 404 (.str "not found")).2.2.2.1
      rfl (by omega),
   (claim_c8_get_contract handlerT oracle404 "p"
      (vulnSearchRequest handlerT "p") 404 (.str "not found")).2.2.2.2.1
      rfl (by omega),
   (claim_c8_get_contract handlerT oracle404 "p"
      (qualityGateRequest handlerT "p") 404 (.str "not found")).2.2.2.2.2
      rfl (by omega)⟩

/-- Claim C9: each public operation leaves the handler unchanged (only the
immutable configuration and header are read), so repeating a call with
identical inputs against the same upstream yields the identical result. -/
theorem claim_c9_stateless (h : Handler) (o : Oracle) (pk : String) :
    (get_bug_details h o pk).handler = h ∧
    (get_vulnerability_details h o pk).handler = h ∧
    (get_quality_gate_status h o pk).handler = h ∧
    get_bug_details (get_bug_details h o pk).handler o pk =
      get_bug_details h o pk ∧
    get_vulnerability_details (get_vulnerability_details h o pk).handler o pk =
      get_vulnerability_details h o pk ∧
    get_quality_gate_status (get_quality_gate_status h o pk).handler o pk =
      get_quality_gate_status h o pk := by
  have hb : (get_bug_details h o pk).handler = h := by
    cases hd : doGet o (bugSearchRequest h pk) with
    | error e => rw [get_bug_details_err hd]
    | ok data =>
      cases hp : parseBugs data with
      | error e => rw [get_bug_details_parse_err hd hp]
      | ok bugs => rw [get_bug_details_ok hd hp]
  have hv : (get_vulnerability_details h o pk).handler = h := by
    cases hd1 : doGet o (vulnSearchRequest h pk) with
    | error e => rw [gvd_err1 hd1]
    | ok data =>
      cases hp1 : parseVulnIssues data with
      | error e => rw [gvd_parse1_err hd1 hp1]
      | ok vulns =>
        cases hd2 : doGet o (hotspotSearchRequest h pk) with
        | error e => rw [gvd_err2 hd1 hp1 hd2]
        | ok data2 =>
          cases hp2 : parseHotspots data2 with
          | error e => rw [gvd_parse2_err hd1 hp1 hd2 hp2]
          | ok hots => rw [gvd_ok hd1 hp1 hd2 hp2]
  have hq : (get_quality_gate_status h o pk).handler = h := by
    cases hd : doGet o (qualityGateRequest h pk) with
    | error e => rw [gqs_err hd]
    | ok data =>
      cases hp : qgStatusOf data with
      | error e => rw [gqs_parse_err hd hp]
      | ok st => rw [gqs_ok hd hp]
  exact ⟨hb, hv, hq, by rw [hb], by rw [hv], by rw [hq]⟩

/-- Claim C10: a 2xx body that lacks the `issues` (or `hotspots`) list key
is treated as an empty list: `get_bug_details` returns a zero-count
report, and `get_vulnerability_details` merges zero entries from the
affected source instead of failing. -/
theorem claim_c10_missing_list (h : Handler) (o : Oracle) (pk : String) :
    (∀ s b fields, o (bugSearchRequest h pk) = .resp s b → 200 ≤ s → s < 300 →
      b = .obj fields → fields.lookup "issues" = none →
      (get_bug_details h o pk).result = .ok ⟨pk, 0, []⟩) ∧
    (∀ s1 b1 f1 s2 b2 hrecs mhots,
      o (vulnSearchRequest h pk) = .resp s1 b1 → 200 ≤ s1 → s1 < 300 →
      b1 = .obj f1 → f1.lookup "issues" = none →
      o (hotspotSearchRequest h pk) = .resp s2 b2 → 200 ≤ s2 → s2 < 300 →
      b2.getList "hotspots" = .ok hrecs → mapME mapHotspot hrecs = .ok mhots →
      (get_vulnerability_details h o pk).result = .ok ⟨pk, mhots.length, mhots⟩) ∧
    (∀ s1 b1 vrecs mvulns s2 b2 f2,
      o (vulnSearchRequest h pk) = .resp s1 b1 → 200 ≤ s1 → s1 < 300 →
      b1.getList "issues" = .ok vrecs → mapME mapVulnIssue vrecs = .ok mvulns →
      o (hotspotSearchRequest h pk) = .resp s2 b2 → 200 ≤ s2 → s2 < 300 →
      b2 = .obj f2 → f2.lookup "hotspots" = none →
      (get_vulnerability_details h o pk).result =
        .ok ⟨pk, mvulns.length, mvulns⟩) := by
  refine ⟨?_, ?_, ?_⟩
  · intro s b fields ho hlo hhi hb hnone
    have hlist : b.getList "issues" = .ok [] := by
      subst hb
      simp only [Json.getList, hnone]
    have hpb : parseBugs b = .ok [] := by
      simp only [parseBugs, hlist, mapME]
    rw [get_bug_details_ok (doGet_resp_ok ho hlo hhi) hpb]
    rfl
  · intro s1 b1 f1 s2 b2 hrecs mhots ho1 hlo1 hhi1 hb1 hnone ho2 hlo2 hhi2 hl2 hm2
    have hlist : b1.getList "issues" = .ok [] := by
      subst hb1
      simp only [Json.getList, hnone]
    have hp1 : parseVulnIssues b1 = .ok [] := by
      simp only [parseVulnIssues, hlist, mapME]
    have hp2 : parseHotspots b2 = .ok mhots := by
      simp only [parseHotspots, hl2, hm2]
    rw [gvd_ok (doGet_resp_ok ho1 hlo1 hhi1) hp1 (doGet_resp_ok ho2 hlo2 hhi2) hp2]
    rfl
  · intro s1 b1 vrecs mvulns s2 b2 f2 ho1 hlo1 hhi1 hl1 hm1 ho2 hlo2 hhi2 hb2 hnone
    have hlist : b2.getList "hotspots" = .ok [] := by
      subst hb2
      simp only [Json.getList, hnone]
    have hp1 : parseVulnIssues b1 = .ok mvulns := by
      simp only [parseVulnIssues, hl1, hm1]
    have hp2 : parseHotspots b2 = .ok [] := by
      simp only [parseHotspots, hlist, mapME]
    rw [gvd_ok (doGet_resp_ok ho1 hlo1 hhi1) hp1 (doGet_resp_ok ho2 hlo2 hhi2) hp2]
    simp

/-- Claim C10, evaluated: 2xx bodies without the `issues` and `hotspots`
keys give a zero-count bug report and a zero-count merged report. -/
theorem claim_c10_witness :
    (get_bug_details handlerT oracleEmptyBodies "p").result = .ok ⟨"p", 0, []⟩ ∧
    (get_vulnerability_details handlerT oracleEmptyBodies "p").result =
      .ok ⟨"p", 0, []⟩ :=
  ⟨(claim_c10_missing_list handlerT oracleEmptyBodies "p").1 200
      (.obj [("paging", .num 1)]) [("paging", .num 1)]
      rfl (by decide) (by decide) rfl rfl,
   (claim_c10_missing_list handlerT oracleEmptyBodies "p").2.1 200
      (.obj [("paging", .num 1)]) [("paging", .num 1)] 200
      (.obj [("paging", .num 1)]) [] []
      rfl (by decide) (by decide) rfl rfl rfl (by decide) (by decide) rfl rfl⟩

end Sonar
